import Mathlib

/-
Verification development for the Pneumatic-Gun-Simulators repository.

The repository contains four Python files with a shared numerical core: a
gas-spring ODE right-hand side ("system") in each of four variants, plus
post-integration derived-quantity formulas and small GUI state plumbing.

Embedding conventions:
  * Machine floats are modelled as real numbers.
  * The floating-point power `base ** gamma` (numpy semantics: a negative
    base with a non-integer exponent yields NaN, a zero base makes the
    subsequent division non-finite) is modelled by the guarded `fpow`,
    which returns `none` exactly when the base is not strictly positive.
    A `none` result models a non-finite (NaN or infinite) pressure value.
  * Module-level constants of the script variants are lambda-lifted into
    explicit parameter structures; the concrete constant records of each
    script are given as separate definitions.
  * Each definition mirrors one code site; the two textually repeated
    pressure formulas (inside the derivative function and in the
    post-integration block) are embedded as two separate definitions.
-/

noncomputable section

/-- Guarded real power modelling the float computation `base ** y` as used
inside a subsequent division: defined (finite) exactly when the base is
strictly positive. -/
def fpow (x y : ℝ) : Option ℝ :=
  if 0 < x then some (x ^ y) else none

namespace Nomad

/-- Parameter record for src/src/nomad.py (module-level constants
lambda-lifted; `leakage_constant` is unused by the code and omitted). -/
structure Params where
  p_0 : ℝ
  p_2 : ℝ
  D : ℝ
  gamma : ℝ
  v_0 : ℝ
  mass : ℝ
  fric1 : ℝ
  fric2 : ℝ

/-- nomad.py line 15: `area = np.pi * (D**2) / 4`. -/
def area (P : Params) : ℝ := Real.pi * P.D ^ 2 / 4

/-- nomad.py line 22: `v_t = v_0 + area * x1`. -/
def v_t (P : Params) (x1 : ℝ) : ℝ := P.v_0 + area P * x1

/-- nomad.py line 23: `p_t = p_0 / ((v_t / v_0) ** gamma)`. -/
def p_t (P : Params) (x1 : ℝ) : Option ℝ :=
  (fpow (v_t P x1 / P.v_0) P.gamma).map (fun r => P.p_0 / r)

/-- nomad.py line 29: `friction = fric1 if x1 <= 0.005 else fric2`
(computed by the code but not used in the acceleration). -/
def friction (P : Params) (x1 : ℝ) : ℝ :=
  if x1 ≤ 0.005 then P.fric1 else P.fric2

/-- nomad.py lines 17-35: the ODE right-hand side. Note that line 33
subtracts the constant `fric1`, not the selected `friction` value. -/
def system (P : Params) (t x1 x2 : ℝ) : Option (ℝ × ℝ) :=
  (p_t P x1).map (fun pt => (x2, ((pt - P.p_2) * area P - P.fric1) / P.mass))

/-- nomad.py lines 6-13: the module-level constant values. -/
def defaults : Params :=
  ⟨501325, 101325, 0.013, 1.4, 1.74e-5, 0.0012, 0.4, 0.2⟩

end Nomad

namespace NomadUI

/-- Parameter record for src/src/nomad_ui.py, one field per key of
`self.params` (nomad_ui.py lines 16-28). -/
structure Params where
  p_0 : ℝ
  p_2 : ℝ
  D : ℝ
  gamma : ℝ
  v_0 : ℝ
  v_expand : ℝ
  mass : ℝ
  fric1 : ℝ
  fric2 : ℝ
  end_time : ℝ
  n_points : ℝ

/-- nomad_ui.py line 143: `area = np.pi * (self.params['D']**2) / 4`. -/
def area (P : Params) : ℝ := Real.pi * P.D ^ 2 / 4

/-- nomad_ui.py line 146: `v_t = v_expand + v_0 + area * x1`. -/
def v_t (P : Params) (x1 : ℝ) : ℝ := P.v_expand + P.v_0 + area P * x1

/-- nomad_ui.py line 147: `p_t = p_0 / ((v_t / v_0) ** gamma)`. -/
def p_t (P : Params) (x1 : ℝ) : Option ℝ :=
  (fpow (v_t P x1 / P.v_0) P.gamma).map (fun r => P.p_0 / r)

/-- nomad_ui.py line 153: `friction = fric1 if x1 <= 0.03 else fric2`. -/
def friction (P : Params) (x1 : ℝ) : ℝ :=
  if x1 ≤ 0.03 then P.fric1 else P.fric2

/-- nomad_ui.py lines 138-159: the ODE right-hand side (this variant does
use the selected `friction` value). -/
def system (P : Params) (t x1 x2 : ℝ) : Option (ℝ × ℝ) :=
  (p_t P x1).map
    (fun pt => (x2, ((pt - P.p_2) * area P - friction P x1) / P.mass))

/-- nomad_ui.py lines 16-28: the construction-time default parameters. -/
def init_params : Params :=
  ⟨583633, 101325, 0.013, 1.4, 1.74e-5, 0.5e-5, 0.0012, 4, 0.2, 0.02, 1500⟩

/-- nomad_ui.py lines 242-260: `reset_parameters` sets every entry listed
in its local `defaults` dict; `v_expand` is not in that dict, so that
entry keeps its current value. -/
def reset_parameters (v : Params) : Params :=
  ⟨482633, 0, 0.013, 1.4, 1.74e-5, v.v_expand, 0.0012, 4, 0.2, 0.02, 1500⟩

end NomadUI

namespace SpringPiston

/-- Parameter record for src/src/spring_piston.py (module-level constants
lambda-lifted; `leakage_constant` is unused by the code and omitted). -/
structure Params where
  p_0 : ℝ
  p_2 : ℝ
  D_b : ℝ
  D_p : ℝ
  gamma : ℝ
  mass_d : ℝ
  mass_p : ℝ
  fric1 : ℝ
  fric2 : ℝ
  xso : ℝ
  L_0 : ℝ
  k : ℝ

/-- spring_piston.py line 16: `area_b = np.pi * (D_b**2) / 4`. -/
def area_b (P : Params) : ℝ := Real.pi * P.D_b ^ 2 / 4

/-- spring_piston.py line 17: `area_p = np.pi * (D_p**2) / 4`. -/
def area_p (P : Params) : ℝ := Real.pi * P.D_p ^ 2 / 4

/-- spring_piston.py line 21: `xsf = xso + L_0`. -/
def xsf (P : Params) : ℝ := P.xso + P.L_0

/-- spring_piston.py line 23: `v_0 = L_0 * area_p`. -/
def v_0 (P : Params) : ℝ := P.L_0 * area_p P

/-- spring_piston.py line 29:
`p_t = p_0 / (((((L_0-p1)*area_p+(d1)*area_b)/v_0)) ** gamma)`.
No clamp is applied to the volume ratio in this variant. -/
def p_t (P : Params) (d1 p1 : ℝ) : Option ℝ :=
  (fpow (((P.L_0 - p1) * area_p P + d1 * area_b P) / v_0 P) P.gamma).map
    (fun r => P.p_0 / r)

/-- spring_piston.py lines 25-41: the ODE right-hand side, returning
`[dd1dt, dd2dt, dp1dt, dp2dt]`. -/
def system (P : Params) (t d1 d2 p1 p2 : ℝ) : Option (ℝ × ℝ × ℝ × ℝ) :=
  (p_t P d1 p1).map
    (fun pt =>
      (d2,
       ((pt - P.p_2) * area_b P) / P.mass_d,
       p2,
       ((P.p_2 - pt) * area_p P + P.k * (xsf P - p1)) / P.mass_p))

/-- spring_piston.py line 64, the post-integration pressure:
`p_t_array = p_0 / (((((L_0-p1_pos)*area_p+(d1_pos)*area_b)/v_0)) ** gamma)`,
per sample. -/
def p_t_array (P : Params) (d1 p1 : ℝ) : Option ℝ :=
  (fpow (((P.L_0 - p1) * area_p P + d1 * area_b P) / v_0 P) P.gamma).map
    (fun r => P.p_0 / r)

/-- spring_piston.py line 68, the post-integration volume:
`v_t_array = ((L_0-p1_pos)*area_p) + (area_b*d1_pos)`, per sample. -/
def v_t_array (P : Params) (d1 p1 : ℝ) : ℝ :=
  (P.L_0 - p1) * area_p P + area_b P * d1

/-- spring_piston.py lines 6-22: the module-level constant values. -/
def defaults : Params :=
  ⟨101325, 101325, 0.0127, 0.035052, 1.4, 0.0012, 0.06, 0.4, 0.2,
   0.0254, 0.1016, 523 * (11 / 5)⟩

end SpringPiston

namespace DartPlungerGUI

/-- Parameter record for src/Spring Piston/dart_plunger_gui.py, one field
per key of `self.params` (dart_plunger_gui.py lines 27-42). -/
structure Params where
  p_0 : ℝ
  p_2 : ℝ
  D_b : ℝ
  D_p : ℝ
  gamma : ℝ
  mass_d : ℝ
  mass_p : ℝ
  fric1 : ℝ
  fric2 : ℝ
  xso : ℝ
  L_0 : ℝ
  k : ℝ
  end_time : ℝ
  n_points : ℝ

/-- dart_plunger_gui.py line 222: barrel cross-sectional area. -/
def area_b (P : Params) : ℝ := Real.pi * P.D_b ^ 2 / 4

/-- dart_plunger_gui.py line 223: plunger cross-sectional area. -/
def area_p (P : Params) : ℝ := Real.pi * P.D_p ^ 2 / 4

/-- dart_plunger_gui.py line 224: `v_0 = L_0 * area_p`. -/
def v_0 (P : Params) : ℝ := P.L_0 * area_p P

/-- dart_plunger_gui.py line 225: `xsf = xso + L_0`. -/
def xsf (P : Params) : ℝ := P.xso + P.L_0

/-- The raw (pre-clamp) volume ratio
`((L_0 - p1) * area_p + d1 * area_b) / v_0` appearing inside
`np.maximum` at dart_plunger_gui.py lines 228-231 and 271-274. -/
def rawRatio (P : Params) (d1 p1 : ℝ) : ℝ :=
  ((P.L_0 - p1) * area_p P + d1 * area_b P) / v_0 P

/-- dart_plunger_gui.py lines 228-231 (inside `system`):
`volume_ratio = np.maximum(raw, 1e-10)`. -/
def volume_ratio (P : Params) (d1 p1 : ℝ) : ℝ :=
  max (rawRatio P d1 p1) 1e-10

/-- dart_plunger_gui.py line 232 (inside `system`):
`p_t = p_0 / (volume_ratio ** gamma)`. -/
def p_t (P : Params) (d1 p1 : ℝ) : Option ℝ :=
  (fpow (volume_ratio P d1 p1) P.gamma).map (fun r => P.p_0 / r)

/-- dart_plunger_gui.py lines 217-243: the ODE right-hand side, returning
`[dd1dt, dd2dt, dp1dt, dp2dt]`. -/
def system (P : Params) (t d1 d2 p1 p2 : ℝ) : Option (ℝ × ℝ × ℝ × ℝ) :=
  (p_t P d1 p1).map
    (fun pt =>
      (d2,
       ((pt - P.p_2) * area_b P) / P.mass_d,
       p2,
       ((P.p_2 - pt) * area_p P + P.k * (xsf P - p1)) / P.mass_p))

/-- dart_plunger_gui.py lines 271-274 (inside `run_simulation`): the
post-integration clamped volume ratio, computed by the same formula. -/
def run_volume_ratio (P : Params) (d1 p1 : ℝ) : ℝ :=
  max (rawRatio P d1 p1) 1e-10

/-- dart_plunger_gui.py line 275 (inside `run_simulation`):
`p_t_array = p_0 / (volume_ratio ** gamma)`, per sample. -/
def p_t_array (P : Params) (d1 p1 : ℝ) : Option ℝ :=
  (fpow (run_volume_ratio P d1 p1) P.gamma).map (fun r => P.p_0 / r)

/-- dart_plunger_gui.py line 276 (inside `run_simulation`):
`v_t_array = (L_0 - p1_pos) * area_p + area_b * d1_pos`, per sample.
This is the raw, unclamped volume. -/
def v_t_array (P : Params) (d1 p1 : ℝ) : ℝ :=
  (P.L_0 - p1) * area_p P + area_b P * d1

/-- dart_plunger_gui.py line 277 (inside `run_simulation`):
`spring_force = k * (xsf - p1_pos)`, per sample. -/
def spring_force (P : Params) (p1 : ℝ) : ℝ := P.k * (xsf P - p1)

/-- dart_plunger_gui.py lines 27-42: the construction-time defaults. -/
def defaults : Params :=
  ⟨101325, 101325, 0.0127, 0.035052, 1.4, 0.0012, 0.06, 0.4, 0.2,
   0.0254, 0.1016, 523 * (11 / 5), 0.02, 1500⟩

end DartPlungerGUI

namespace GuiLoad

/-- The fourteen parameter keys of the dart-plunger GUI, in the insertion
order of `self.params` (dart_plunger_gui.py lines 27-42). -/
inductive PKey
  | p_0 | p_2 | D_b | D_p | gamma | mass_d | mass_p
  | fric1 | fric2 | xso | L_0 | k | end_time | n_points
deriving DecidableEq

/-- The keys in dictionary (insertion) order, as iterated by
`for key in self.params` and `self.params.items()`. -/
def keyList : List PKey :=
  [.p_0, .p_2, .D_b, .D_p, .gamma, .mass_d, .mass_p,
   .fric1, .fric2, .xso, .L_0, .k, .end_time, .n_points]

/-- A stored parameter value: either a numeric value, or an arbitrary
unpickled object that the display widget type coercion rejects. -/
inductive PVal
  | num (x : ℝ)
  | bad

/-- Whether converting the value to display units and storing it into the
key entry widget succeeds (dart_plunger_gui.py lines 458-460); `bad`
raises and is caught as the rejection at lines 461-464. -/
def coerceOk : PVal → Bool
  | .num _ => true
  | .bad => false

/-- The object produced by `pickle.load`: either not a mapping, or a
mapping from keys to optionally-present values. -/
inductive Loaded
  | notDict
  | dict (m : PKey → Option PVal)

/-- The mutable GUI state touched by `load_parameters`: the in-memory
`self.params` dict and the `self.param_vars` display variables. -/
structure GuiState where
  params : PKey → PVal
  vars : PKey → PVal

/-- dart_plunger_gui.py lines 457-464: the loop writing each parameter
into its display variable; a rejected value aborts the rest of the loop
and reports failure. -/
def updateVarsLoop : List PKey → GuiState → GuiState × Bool
  | [], s => (s, true)
  | kk :: ks, s =>
    if coerceOk (s.params kk) then
      updateVarsLoop ks
        ⟨s.params, fun k2 => if k2 = kk then s.params kk else s.vars k2⟩
    else (s, false)

/-- dart_plunger_gui.py lines 427-468 (minus the file dialog and I/O):
reject a non-mapping; reject a mapping with missing keys; otherwise
`self.params.update(loaded_params)` (line 455) runs BEFORE the display
variables are written, so a later coercion rejection leaves the params
dict already overwritten. The Bool is True exactly on a fully successful
load. -/
def load_parameters (s : GuiState) (l : Loaded) : GuiState × Bool :=
  match l with
  | .notDict => (s, false)
  | .dict m =>
    if keyList.any (fun kk => (m kk).isNone) then (s, false)
    else
      updateVarsLoop keyList ⟨fun kk => (m kk).getD (s.params kk), s.vars⟩

end GuiLoad

/-- Concrete pre-load GUI state used in the claim C4 analysis: every
parameter currently holds the numeric value 2. -/
def loadState0 : GuiLoad.GuiState := ⟨fun _ => .num 2, fun _ => .num 2⟩

/-- Concrete loaded mapping used in the claim C4 analysis: every key is
present; `gamma` holds a value rejected by the widget coercion, every
other key holds the numeric value 3. -/
def loadDict0 : GuiLoad.PKey → Option GuiLoad.PVal :=
  fun kk => some (match kk with | .gamma => .bad | _ => .num 3)

/-- Concrete loaded mapping used in the claim C4 analysis: the spring
constant key is missing, every other key holds the numeric value 3. -/
def loadDictMissing : GuiLoad.PKey → Option GuiLoad.PVal :=
  fun kk => match kk with | .k => none | _ => some (.num 3)

/-- Parameter record with `p_0 = p_2` for the single-body GUI variant,
otherwise the nomad_ui.py defaults (in particular `v_expand = 0.5e-5`). -/
def uiEqualPressures : NomadUI.Params :=
  ⟨101325, 101325, 0.013, 1.4, 1.74e-5, 0.5e-5, 0.0012, 4, 0.2, 0.02, 1500⟩

/-- Parameter record with `p_0 = p_2`, zero expansion volume, otherwise
the nomad_ui.py defaults. -/
def uiEqualPressuresNoExpand : NomadUI.Params :=
  ⟨101325, 101325, 0.013, 1.4, 1.74e-5, 0, 0.0012, 4, 0.2, 0.02, 1500⟩

/-- Nomad parameter record with `p_0 = p_2`, otherwise the nomad.py
constants. -/
def nomadEqualPressures : Nomad.Params :=
  ⟨101325, 101325, 0.013, 1.4, 1.74e-5, 0.0012, 0.4, 0.2⟩

/-- The dart-plunger GUI defaults with the spring constant set to zero. -/
def guiZeroSpring : DartPlungerGUI.Params :=
  ⟨101325, 101325, 0.0127, 0.035052, 1.4, 0.0012, 0.06, 0.4, 0.2,
   0.0254, 0.1016, 0, 0.02, 1500⟩

/-- The spring_piston.py constants with the spring constant set to zero. -/
def spZeroSpring : SpringPiston.Params :=
  ⟨101325, 101325, 0.0127, 0.035052, 1.4, 0.0012, 0.06, 0.4, 0.2,
   0.0254, 0.1016, 0⟩

/-- The internal pressure value of nomad.py at position 0.01 with the
module constants, used to instantiate the claim C5 theorem. -/
def nomadPt001 : ℝ :=
  Nomad.defaults.p_0 /
    ((Nomad.v_t Nomad.defaults 0.01 / Nomad.defaults.v_0) ^ Nomad.defaults.gamma)

/-- Unfolding lemma: the guarded power is defined at a positive base. -/
theorem fpow_of_pos {x : ℝ} (h : 0 < x) (y : ℝ) : fpow x y = some (x ^ y) := by
  rw [fpow, if_pos h]

/-- Unfolding lemma: the guarded power is undefined (models NaN or a
subsequent division by zero) at a non-positive base. -/
theorem fpow_of_nonpos {x : ℝ} (h : x ≤ 0) (y : ℝ) : fpow x y = none := by
  rw [fpow, if_neg (not_lt.mpr h)]

/-- The clamped volume ratio is always strictly positive. -/
theorem clamp_pos (r : ℝ) : 0 < max r 1e-10 :=
  lt_of_lt_of_le (by norm_num) (le_max_right r 1e-10)

/-- Dividing by a power of a quotient of positives equals multiplying by
the power of the flipped quotient. -/
theorem div_rpow_flip (p a b y : ℝ) (ha : 0 < a) (hb : 0 < b) :
    p / (a / b) ^ y = p * (b / a) ^ y := by
  rw [div_eq_mul_inv p,
    ← Real.inv_rpow (show (0:ℝ) ≤ a / b by positivity), inv_div]

/-- The expansion-chamber volume ratio of the nomad_ui.py defaults,
raised to the adiabatic index, strictly exceeds one. -/
theorem expand_ratio_rpow_gt_one :
    (1 : ℝ) < ((0.5e-5 + 1.74e-5) / 1.74e-5) ^ (1.4 : ℝ) :=
  (Real.one_lt_rpow_iff_of_pos (by norm_num)).mpr
    (Or.inl ⟨by norm_num, by norm_num⟩)

/-- C1 (amended): only the two-body GUI variant floors the volume ratio
at 1e-10; thanks to the floor its derivative function returns a defined
(finite) vector for every parameter set and every state. -/
theorem c1_gui_derivative_always_finite :
    ∀ (P : DartPlungerGUI.Params) (t d1 d2 p1 p2 : ℝ),
      (DartPlungerGUI.system P t d1 d2 p1 p2).isSome = true := by
  intro P t d1 d2 p1 p2
  have h : 0 < DartPlungerGUI.volume_ratio P d1 p1 := clamp_pos _
  rw [DartPlungerGUI.system, DartPlungerGUI.p_t, fpow_of_pos h]
  rfl

/-- C1 counterexample: the two-body script variant spring_piston.py
applies no floor to the volume ratio; at plunger position 0.2 (past the
free plunger length 0.1016) the raw ratio is negative and the derivative
vector is not finite (modelled as `none`). -/
theorem c1_counterexample_spring_piston_unclamped :
    SpringPiston.system SpringPiston.defaults 0 0 0 0.2 0 = none := by
  have hp : (0:ℝ) < SpringPiston.area_p SpringPiston.defaults := by
    simp only [SpringPiston.area_p, SpringPiston.defaults]
    positivity
  have hnum : (SpringPiston.defaults.L_0 - 0.2) * SpringPiston.area_p SpringPiston.defaults
      + 0 * SpringPiston.area_b SpringPiston.defaults ≤ 0 := by
    simp only [SpringPiston.defaults] at hp ⊢
    nlinarith [hp]
  have hden : 0 ≤ SpringPiston.v_0 SpringPiston.defaults := by
    rw [SpringPiston.v_0]
    have : (0:ℝ) ≤ SpringPiston.defaults.L_0 := by norm_num [SpringPiston.defaults]
    exact mul_nonneg this hp.le
  have hratio : ((SpringPiston.defaults.L_0 - 0.2) * SpringPiston.area_p SpringPiston.defaults
      + 0 * SpringPiston.area_b SpringPiston.defaults)
      / SpringPiston.v_0 SpringPiston.defaults ≤ 0 :=
    div_nonpos_iff.mpr (Or.inr ⟨hnum, hden⟩)
  rw [SpringPiston.system, SpringPiston.p_t, fpow_of_nonpos hratio]
  rfl

/-- C2: the post-integration derived pressure formula computes exactly
the pressure the derivative function computes internally, pointwise at
each sample position pair, for both two-body variants (same formula, same
clamp in the GUI, no clamp in the script). -/
theorem c2_post_pressure_matches_internal :
    (∀ (P : DartPlungerGUI.Params) (d1 p1 : ℝ),
      DartPlungerGUI.p_t_array P d1 p1 = DartPlungerGUI.p_t P d1 p1) ∧
    (∀ (P : SpringPiston.Params) (d1 p1 : ℝ),
      SpringPiston.p_t_array P d1 p1 = SpringPiston.p_t P d1 p1) :=
  ⟨fun _ _ _ => rfl, fun _ _ _ => rfl⟩

/-- C8: every variant of the derivative function ignores its time
argument, so the output at (t1, x) equals the output at (t2, x) for every
parameter set and state. -/
theorem c8_autonomous_time_invariant :
    ∀ (Pn : Nomad.Params) (Pu : NomadUI.Params) (Ps : SpringPiston.Params)
      (Pg : DartPlungerGUI.Params) (t1 t2 x1 x2 d1 d2 q1 q2 : ℝ),
      Nomad.system Pn t1 x1 x2 = Nomad.system Pn t2 x1 x2 ∧
      NomadUI.system Pu t1 x1 x2 = NomadUI.system Pu t2 x1 x2 ∧
      SpringPiston.system Ps t1 d1 d2 q1 q2 = SpringPiston.system Ps t2 d1 d2 q1 q2 ∧
      DartPlungerGUI.system Pg t1 d1 d2 q1 q2 = DartPlungerGUI.system Pg t2 d1 d2 q1 q2 := by
  intro Pn Pu Ps Pg t1 t2 x1 x2 d1 d2 q1 q2
  exact ⟨rfl, rfl, rfl, rfl⟩

/-- C9: the single-body GUI reset writes 482633 into p_0 and 0 into p_2
(differing from the construction-time defaults 583633 and 101325),
overwrites every other listed entry with its reset value, and never
writes v_expand, which keeps its current value. -/
theorem c9_reset_frame_effect :
    ∀ (v : NomadUI.Params),
      NomadUI.reset_parameters v =
        ⟨482633, 0, 0.013, 1.4, 1.74e-5, v.v_expand, 0.0012, 4, 0.2, 0.02, 1500⟩ ∧
      (NomadUI.reset_parameters v).v_expand = v.v_expand ∧
      (NomadUI.reset_parameters v).p_0 = 482633 ∧
      (NomadUI.reset_parameters v).p_2 = 0 ∧
      (NomadUI.reset_parameters v).p_0 ≠ NomadUI.init_params.p_0 ∧
      (NomadUI.reset_parameters v).p_2 ≠ NomadUI.init_params.p_2 := by
  intro v
  refine ⟨rfl, rfl, rfl, rfl, ?_, ?_⟩
  · simp only [NomadUI.reset_parameters, NomadUI.init_params]
    norm_num
  · simp only [NomadUI.reset_parameters, NomadUI.init_params]
    norm_num

/-- C3 (amended): with p_0 = p_2 the all-zero-state acceleration equals
-fric1/mass in nomad.py for every parameter set with nonzero rest volume;
in nomad_ui.py the same holds under the extra assumption v_expand = 0,
because its rest volume ratio is (v_expand + v_0) / v_0. -/
theorem c3_rest_acceleration_equal_pressures :
    (∀ (P : Nomad.Params) (t : ℝ), P.p_0 = P.p_2 → P.v_0 ≠ 0 →
      Nomad.system P t 0 0 = some (0, -P.fric1 / P.mass)) ∧
    (∀ (P : NomadUI.Params) (t : ℝ), P.p_0 = P.p_2 → P.v_expand = 0 → P.v_0 ≠ 0 →
      NomadUI.system P t 0 0 = some (0, -P.fric1 / P.mass)) := by
  constructor
  · intro P t hp hv
    have hvt : Nomad.v_t P 0 / P.v_0 = 1 := by
      rw [Nomad.v_t, mul_zero, add_zero, div_self hv]
    rw [Nomad.system, Nomad.p_t, hvt, fpow_of_pos one_pos, Real.one_rpow]
    simp [hp]
  · intro P t hp he hv
    have hvt : NomadUI.v_t P 0 / P.v_0 = 1 := by
      rw [NomadUI.v_t, he, mul_zero, add_zero, zero_add, div_self hv]
    have hf : NomadUI.friction P 0 = P.fric1 := by
      rw [NomadUI.friction, if_pos (by norm_num : (0:ℝ) ≤ 0.03)]
    rw [NomadUI.system, NomadUI.p_t, hvt, fpow_of_pos one_pos, Real.one_rpow]
    simp [hp, hf]

/-- C3 witness: concrete instantiations of the amended theorem, with
p_0 = p_2 = 101325 in both variants and v_expand = 0 in the GUI one. -/
theorem c3_witness :
    nomadEqualPressures.p_0 = nomadEqualPressures.p_2 ∧
    nomadEqualPressures.v_0 ≠ 0 ∧
    Nomad.system nomadEqualPressures 0 0 0 =
      some (0, -nomadEqualPressures.fric1 / nomadEqualPressures.mass) ∧
    uiEqualPressuresNoExpand.p_0 = uiEqualPressuresNoExpand.p_2 ∧
    uiEqualPressuresNoExpand.v_expand = 0 ∧
    NomadUI.system uiEqualPressuresNoExpand 0 0 0 =
      some (0, -uiEqualPressuresNoExpand.fric1 / uiEqualPressuresNoExpand.mass) :=
  ⟨rfl, by norm_num [nomadEqualPressures],
   c3_rest_acceleration_equal_pressures.1 nomadEqualPressures 0 rfl
     (by norm_num [nomadEqualPressures]),
   rfl, rfl,
   c3_rest_acceleration_equal_pressures.2 uiEqualPressuresNoExpand 0 rfl rfl
     (by norm_num [uiEqualPressuresNoExpand])⟩

/-- C3 counterexample: in nomad_ui.py with p_0 = p_2 = 101325 but the
default expansion volume v_expand = 0.5e-5, the all-zero-state
acceleration differs from -fric1/mass: the rest volume already exceeds
v_0, so the internal pressure is strictly below ambient. -/
theorem c3_counterexample_ui_expansion_volume :
    NomadUI.system uiEqualPressures 0 0 0 ≠
      some (0, -uiEqualPressures.fric1 / uiEqualPressures.mass) := by
  have hvt : NomadUI.v_t uiEqualPressures 0 / uiEqualPressures.v_0
      = (0.5e-5 + 1.74e-5) / 1.74e-5 := by
    rw [NomadUI.v_t, mul_zero, add_zero]
    norm_num [uiEqualPressures]
  have hrpos : (0:ℝ) < (0.5e-5 + 1.74e-5) / 1.74e-5 := by norm_num
  have hlt : (101325:ℝ) / ((0.5e-5 + 1.74e-5) / 1.74e-5) ^ (1.4:ℝ) < 101325 :=
    div_lt_self (by norm_num) expand_ratio_rpow_gt_one
  have hA : (0:ℝ) < Real.pi * 0.013 ^ 2 / 4 := by positivity
  intro h
  rw [NomadUI.system, NomadUI.p_t, hvt, fpow_of_pos hrpos] at h
  simp only [Option.map_some', Option.some.injEq, Prod.mk.injEq,
    NomadUI.friction, NomadUI.area, uiEqualPressures] at h
  norm_num at h
  nlinarith [h, mul_neg_of_neg_of_pos (sub_neg.mpr hlt) hA]

/-- C5: nomad.py computes the position-threshold friction selection, yet
the returned acceleration always subtracts the constant fric1: the
output never depends on fric2 and equals ((p_t - p_2)*area - fric1)/mass
for every position, whenever the pressure is defined. -/
theorem c5_nomad_selected_friction_unused :
    ∀ (P : Nomad.Params) (f2 t x1 x2 : ℝ),
      Nomad.friction P x1 = (if x1 ≤ 0.005 then P.fric1 else P.fric2) ∧
      Nomad.system
        (Nomad.Params.mk P.p_0 P.p_2 P.D P.gamma P.v_0 P.mass P.fric1 f2) t x1 x2
        = Nomad.system P t x1 x2 ∧
      (∀ pt, Nomad.p_t P x1 = some pt →
        Nomad.system P t x1 x2 =
          some (x2, ((pt - P.p_2) * Nomad.area P - P.fric1) / P.mass)) := by
  intro P f2 t x1 x2
  refine ⟨rfl, rfl, fun pt hpt => ?_⟩
  rw [Nomad.system, hpt, Option.map_some']

/-- C5 witness: at position 0.01, above the 0.005 threshold, the selected
friction is fric2, yet the nomad.py acceleration still subtracts fric1. -/
theorem c5_witness :
    Nomad.friction Nomad.defaults 0.01 = Nomad.defaults.fric2 ∧
    Nomad.p_t Nomad.defaults 0.01 = some nomadPt001 ∧
    Nomad.system Nomad.defaults 0 0.01 0 =
      some (0, ((nomadPt001 - Nomad.defaults.p_2) * Nomad.area Nomad.defaults
        - Nomad.defaults.fric1) / Nomad.defaults.mass) := by
  have hpos : (0:ℝ) < Nomad.v_t Nomad.defaults 0.01 / Nomad.defaults.v_0 := by
    simp only [Nomad.v_t, Nomad.area, Nomad.defaults]
    positivity
  have hpt : Nomad.p_t Nomad.defaults 0.01 = some nomadPt001 := by
    rw [Nomad.p_t, fpow_of_pos hpos, Option.map_some']
    simp only [nomadPt001]
  have hfr : Nomad.friction Nomad.defaults 0.01 = Nomad.defaults.fric2 := by
    rw [Nomad.friction, if_neg (by norm_num : ¬ ((0.01:ℝ) ≤ 0.005))]
  exact ⟨hfr, hpt,
    (c5_nomad_selected_friction_unused Nomad.defaults 0.2 0 0.01 0).2.2 nomadPt001 hpt⟩

/-- C6 (amended): nomad.py computes the pressure p_0 * (V_0 / V)^gamma
with V = V_0 + A*x as claimed; in nomad_ui.py the working volume
additionally contains the expansion-chamber volume, so the pressure is
p_0 * (V_0 / (v_expand + V_0 + A*x))^gamma. -/
theorem c6_polytropic_pressure_formula :
    (∀ (P : Nomad.Params) (x : ℝ), 0 < P.v_0 → 0 < Nomad.v_t P x →
      Nomad.p_t P x = some (P.p_0 * (P.v_0 / Nomad.v_t P x) ^ P.gamma)) ∧
    (∀ (P : NomadUI.Params) (x : ℝ), 0 < P.v_0 → 0 < NomadUI.v_t P x →
      NomadUI.p_t P x = some (P.p_0 * (P.v_0 / NomadUI.v_t P x) ^ P.gamma)) := by
  constructor
  · intro P x hv hvt
    rw [Nomad.p_t, fpow_of_pos (div_pos hvt hv)]
    simp only [Option.map_some']
    rw [div_rpow_flip _ _ _ _ hvt hv]
  · intro P x hv hvt
    rw [NomadUI.p_t, fpow_of_pos (div_pos hvt hv)]
    simp only [Option.map_some']
    rw [div_rpow_flip _ _ _ _ hvt hv]

/-- C6 witness: the nomad.py conjunct instantiated at the module
constants and x = 0. -/
theorem c6_witness :
    (0:ℝ) < Nomad.defaults.v_0 ∧
    (0:ℝ) < Nomad.v_t Nomad.defaults 0 ∧
    Nomad.p_t Nomad.defaults 0 =
      some (Nomad.defaults.p_0 *
        (Nomad.defaults.v_0 / Nomad.v_t Nomad.defaults 0) ^ Nomad.defaults.gamma) := by
  have h1 : (0:ℝ) < Nomad.defaults.v_0 := by norm_num [Nomad.defaults]
  have h2 : (0:ℝ) < Nomad.v_t Nomad.defaults 0 := by
    simp only [Nomad.v_t, Nomad.area, Nomad.defaults]
    norm_num
  exact ⟨h1, h2, c6_polytropic_pressure_formula.1 Nomad.defaults 0 h1 h2⟩

/-- C6 counterexample: at the nomad_ui.py defaults (v_expand = 0.5e-5)
and x = 0, the computed pressure differs from
p_0 * (V_0 / (V_0 + A*0))^gamma = p_0, because the expansion volume makes
the actual volume ratio exceed one. -/
theorem c6_counterexample_ui_expansion_volume :
    NomadUI.p_t NomadUI.init_params 0 ≠
      some (NomadUI.init_params.p_0 *
        (NomadUI.init_params.v_0 /
          (NomadUI.init_params.v_0 + NomadUI.area NomadUI.init_params * 0)) ^
        NomadUI.init_params.gamma) := by
  have hvt : NomadUI.v_t NomadUI.init_params 0 / NomadUI.init_params.v_0
      = (0.5e-5 + 1.74e-5) / 1.74e-5 := by
    rw [NomadUI.v_t, mul_zero, add_zero]
    norm_num [NomadUI.init_params]
  have hrpos : (0:ℝ) < (0.5e-5 + 1.74e-5) / 1.74e-5 := by norm_num
  have hlt : (583633:ℝ) / ((0.5e-5 + 1.74e-5) / 1.74e-5) ^ (1.4:ℝ) < 583633 :=
    div_lt_self (by norm_num) expand_ratio_rpow_gt_one
  have hrhs : NomadUI.init_params.p_0 *
      (NomadUI.init_params.v_0 /
        (NomadUI.init_params.v_0 + NomadUI.area NomadUI.init_params * 0)) ^
      NomadUI.init_params.gamma = 583633 := by
    rw [mul_zero, add_zero,
      div_self (by norm_num [NomadUI.init_params] : NomadUI.init_params.v_0 ≠ 0),
      Real.one_rpow, mul_one]
    norm_num [NomadUI.init_params]
  intro h
  rw [NomadUI.p_t, hvt, fpow_of_pos hrpos, hrhs] at h
  simp only [Option.map_some', Option.some.injEq, NomadUI.init_params] at h
  exact absurd h (ne_of_lt hlt)

/-- C7: in both two-body variants, with zero spring constant and
p_0 = p_2, the plunger acceleration component at the all-zero state is
exactly zero, for every remaining parameter choice with nonzero rest
volume. -/
theorem c7_plunger_rest_acceleration_zero :
    ∀ (Pg : DartPlungerGUI.Params) (Ps : SpringPiston.Params) (t : ℝ),
      Pg.k = 0 → Pg.p_0 = Pg.p_2 → DartPlungerGUI.v_0 Pg ≠ 0 →
      Ps.k = 0 → Ps.p_0 = Ps.p_2 → SpringPiston.v_0 Ps ≠ 0 →
      Option.map (fun v => v.2.2.2) (DartPlungerGUI.system Pg t 0 0 0 0) = some 0 ∧
      Option.map (fun v => v.2.2.2) (SpringPiston.system Ps t 0 0 0 0) = some 0 := by
  intro Pg Ps t hkg hpg hvg hks hps hvs
  constructor
  · have hraw : DartPlungerGUI.rawRatio Pg 0 0 = 1 := by
      rw [DartPlungerGUI.rawRatio, sub_zero, zero_mul, add_zero]
      rw [DartPlungerGUI.v_0] at hvg ⊢
      exact div_self hvg
    have hclamp : DartPlungerGUI.volume_ratio Pg 0 0 = 1 := by
      rw [DartPlungerGUI.volume_ratio, hraw]
      exact max_eq_left (by norm_num)
    rw [DartPlungerGUI.system, DartPlungerGUI.p_t, hclamp,
      fpow_of_pos one_pos, Real.one_rpow]
    simp [hpg, hkg]
  · have hraw : ((Ps.L_0 - 0) * SpringPiston.area_p Ps
        + 0 * SpringPiston.area_b Ps) / SpringPiston.v_0 Ps = 1 := by
      rw [sub_zero, zero_mul, add_zero]
      rw [SpringPiston.v_0] at hvs ⊢
      exact div_self hvs
    rw [SpringPiston.system, SpringPiston.p_t, hraw,
      fpow_of_pos one_pos, Real.one_rpow]
    simp [hps, hks]

/-- C7 witness: concrete instantiation at both two-body defaults with
the spring constant set to zero (the default pressures are already both
101325). -/
theorem c7_witness :
    guiZeroSpring.k = 0 ∧ guiZeroSpring.p_0 = guiZeroSpring.p_2 ∧
    DartPlungerGUI.v_0 guiZeroSpring ≠ 0 ∧
    spZeroSpring.k = 0 ∧ spZeroSpring.p_0 = spZeroSpring.p_2 ∧
    SpringPiston.v_0 spZeroSpring ≠ 0 ∧
    Option.map (fun v => v.2.2.2) (DartPlungerGUI.system guiZeroSpring 0 0 0 0 0) = some 0 ∧
    Option.map (fun v => v.2.2.2) (SpringPiston.system spZeroSpring 0 0 0 0 0) = some 0 := by
  have hg : DartPlungerGUI.v_0 guiZeroSpring ≠ 0 := by
    simp only [DartPlungerGUI.v_0, DartPlungerGUI.area_p, guiZeroSpring]
    positivity
  have hs : SpringPiston.v_0 spZeroSpring ≠ 0 := by
    simp only [SpringPiston.v_0, SpringPiston.area_p, spZeroSpring]
    positivity
  obtain ⟨h1, h2⟩ :=
    c7_plunger_rest_acceleration_zero guiZeroSpring spZeroSpring 0 rfl rfl hg rfl rfl hs
  exact ⟨rfl, rfl, hg, rfl, rfl, hs, h1, h2⟩

/-- Every parameter key occurs in the iterated key list. -/
theorem mem_keyList (kk : GuiLoad.PKey) : kk ∈ GuiLoad.keyList := by
  cases kk <;> simp [GuiLoad.keyList]

/-- The display-variable update loop never writes the params dict. -/
theorem updateVarsLoop_params :
    ∀ (ks : List GuiLoad.PKey) (s : GuiLoad.GuiState),
      ((GuiLoad.updateVarsLoop ks s).1).params = s.params := by
  intro ks
  induction ks with
  | nil => intro s; rfl
  | cons kk ks ih =>
    intro s
    simp only [GuiLoad.updateVarsLoop]
    by_cases h : GuiLoad.coerceOk (s.params kk) = true
    · rw [if_pos h]
      exact ih _
    · rw [if_neg h]

/-- C4 (amended): a load rejected because the unpickled object is not a
mapping, or because a required key is missing, leaves the in-memory
parameter set (and all GUI state) unchanged; but the widget-coercion
check runs AFTER self.params.update(loaded), so whenever every key is
present the in-memory parameter set ends up overwritten with the loaded
values even when the load is then rejected. -/
theorem c4_load_rejection_effects :
    (∀ (s : GuiLoad.GuiState), GuiLoad.load_parameters s .notDict = (s, false)) ∧
    (∀ (s : GuiLoad.GuiState) (m : GuiLoad.PKey → Option GuiLoad.PVal)
      (kk : GuiLoad.PKey), m kk = none →
      GuiLoad.load_parameters s (.dict m) = (s, false)) ∧
    (∀ (s : GuiLoad.GuiState) (m : GuiLoad.PKey → Option GuiLoad.PVal),
      (∀ kk, (m kk).isSome = true) →
      ((GuiLoad.load_parameters s (.dict m)).1).params
        = fun kk => (m kk).getD (s.params kk)) := by
  refine ⟨fun s => rfl, ?_, ?_⟩
  · intro s m kk hk
    have hany : (GuiLoad.keyList.any fun j => (m j).isNone) = true :=
      List.any_eq_true.mpr ⟨kk, mem_keyList kk, by rw [hk]; rfl⟩
    simp only [GuiLoad.load_parameters]
    rw [if_pos hany]
  · intro s m hm
    have hany : (GuiLoad.keyList.any fun j => (m j).isNone) = false := by
      rw [List.any_eq_false]
      intro j hj
      obtain ⟨a, ha⟩ := Option.isSome_iff_exists.mp (hm j)
      rw [ha]
      simp
    simp only [GuiLoad.load_parameters]
    rw [if_neg (by rw [hany]; simp)]
    exact updateVarsLoop_params GuiLoad.keyList _

/-- C4 witness: concrete instantiations of the amended theorem: a load
missing the spring-constant key is rejected with no state change, and a
load with every key present but one coercion-rejected value still
overwrites the in-memory parameter set. -/
theorem c4_witness :
    loadDictMissing .k = none ∧
    GuiLoad.load_parameters loadState0 (.dict loadDictMissing) = (loadState0, false) ∧
    (∀ kk, (loadDict0 kk).isSome = true) ∧
    ((GuiLoad.load_parameters loadState0 (.dict loadDict0)).1).params
      = fun kk => (loadDict0 kk).getD (loadState0.params kk) := by
  have hm : ∀ kk, (loadDict0 kk).isSome = true := by
    intro kk
    cases kk <;> rfl
  exact ⟨rfl,
    c4_load_rejection_effects.2.1 loadState0 loadDictMissing .k rfl,
    hm,
    c4_load_rejection_effects.2.2 loadState0 loadDict0 hm⟩

/-- C4 counterexample: this load is rejected (the gamma value fails the
widget coercion), yet the in-memory parameter set does not keep its prior
values: p_0 has changed from 2 to 3. -/
theorem c4_counterexample_rejected_load_mutates :
    (GuiLoad.load_parameters loadState0 (.dict loadDict0)).2 = false ∧
    (GuiLoad.load_parameters loadState0 (.dict loadDict0)).1.params .p_0
      ≠ loadState0.params .p_0 := by
  constructor
  · norm_num [GuiLoad.load_parameters, GuiLoad.keyList, GuiLoad.updateVarsLoop,
      loadState0, loadDict0, GuiLoad.coerceOk]
  · norm_num [GuiLoad.load_parameters, GuiLoad.keyList, GuiLoad.updateVarsLoop,
      loadState0, loadDict0, GuiLoad.coerceOk]

/-- C10: in the GUI post-processing the pressure array uses the clamped
volume ratio while the volume array is the raw value: strictly above the
floor the identity p * (V / v_0)^gamma = p_0 holds exactly; at the
defaults with plunger position 0.2 the raw ratio is below the floor, the
reported volume is negative, a pressure is still reported, and the power
in the identity is no longer defined. -/
theorem c10_clamped_pressure_raw_volume :
    (∀ (P : DartPlungerGUI.Params) (d1 p1 : ℝ),
      1e-10 < DartPlungerGUI.rawRatio P d1 p1 →
      ∃ pv w, DartPlungerGUI.p_t_array P d1 p1 = some pv ∧
        fpow (DartPlungerGUI.v_t_array P d1 p1 / DartPlungerGUI.v_0 P) P.gamma
          = some w ∧
        pv * w = P.p_0) ∧
    (DartPlungerGUI.v_t_array DartPlungerGUI.defaults 0 0.2 < 0 ∧
      (DartPlungerGUI.p_t_array DartPlungerGUI.defaults 0 0.2).isSome = true ∧
      fpow (DartPlungerGUI.v_t_array DartPlungerGUI.defaults 0 0.2
          / DartPlungerGUI.v_0 DartPlungerGUI.defaults) DartPlungerGUI.defaults.gamma
        = none) := by
  constructor
  · intro P d1 p1 hraw
    have hrawpos : 0 < DartPlungerGUI.rawRatio P d1 p1 := lt_trans (by norm_num) hraw
    have hclamp : DartPlungerGUI.run_volume_ratio P d1 p1
        = DartPlungerGUI.rawRatio P d1 p1 := by
      rw [DartPlungerGUI.run_volume_ratio]
      exact max_eq_left hraw.le
    have hvdiv : DartPlungerGUI.v_t_array P d1 p1 / DartPlungerGUI.v_0 P
        = DartPlungerGUI.rawRatio P d1 p1 := by
      rw [DartPlungerGUI.v_t_array, DartPlungerGUI.rawRatio,
        mul_comm (DartPlungerGUI.area_b P) d1]
    refine ⟨P.p_0 / DartPlungerGUI.rawRatio P d1 p1 ^ P.gamma,
      DartPlungerGUI.rawRatio P d1 p1 ^ P.gamma, ?_, ?_, ?_⟩
    · rw [DartPlungerGUI.p_t_array, hclamp, fpow_of_pos hrawpos, Option.map_some']
    · rw [hvdiv, fpow_of_pos hrawpos]
    · exact div_mul_cancel₀ _ (Real.rpow_pos_of_pos hrawpos _).ne'
  · have hap : (0:ℝ) < DartPlungerGUI.area_p DartPlungerGUI.defaults := by
      simp only [DartPlungerGUI.area_p, DartPlungerGUI.defaults]
      positivity
    have hL : (DartPlungerGUI.defaults.L_0 - 0.2 : ℝ) < 0 := by
      norm_num [DartPlungerGUI.defaults]
    have hv : DartPlungerGUI.v_t_array DartPlungerGUI.defaults 0 0.2 < 0 := by
      rw [DartPlungerGUI.v_t_array]
      nlinarith [mul_neg_of_neg_of_pos hL hap]
    refine ⟨hv, ?_, ?_⟩
    · rw [DartPlungerGUI.p_t_array, DartPlungerGUI.run_volume_ratio,
        fpow_of_pos (clamp_pos _), Option.map_some']
      rfl
    · have hvv : DartPlungerGUI.v_t_array DartPlungerGUI.defaults 0 0.2
          / DartPlungerGUI.v_0 DartPlungerGUI.defaults ≤ 0 := by
        apply div_nonpos_iff.mpr
        refine Or.inr ⟨hv.le, ?_⟩
        rw [DartPlungerGUI.v_0]
        have hLpos : (0:ℝ) ≤ DartPlungerGUI.defaults.L_0 := by
          norm_num [DartPlungerGUI.defaults]
        exact mul_nonneg hLpos hap.le
      exact fpow_of_nonpos hvv _

/-- C10 witness: the identity conjunct instantiated at the defaults and
the all-zero state, where the raw volume ratio equals one. -/
theorem c10_witness :
    1e-10 < DartPlungerGUI.rawRatio DartPlungerGUI.defaults 0 0 ∧
    ∃ pv w, DartPlungerGUI.p_t_array DartPlungerGUI.defaults 0 0 = some pv ∧
      fpow (DartPlungerGUI.v_t_array DartPlungerGUI.defaults 0 0
          / DartPlungerGUI.v_0 DartPlungerGUI.defaults) DartPlungerGUI.defaults.gamma
        = some w ∧
      pv * w = DartPlungerGUI.defaults.p_0 := by
  have hne : DartPlungerGUI.v_0 DartPlungerGUI.defaults ≠ 0 := by
    simp only [DartPlungerGUI.v_0, DartPlungerGUI.area_p, DartPlungerGUI.defaults]
    positivity
  have hraw : DartPlungerGUI.rawRatio DartPlungerGUI.defaults 0 0 = 1 := by
    rw [DartPlungerGUI.rawRatio, sub_zero, zero_mul, add_zero]
    rw [DartPlungerGUI.v_0] at hne ⊢
    exact div_self hne
  have h1 : (1e-10:ℝ) < DartPlungerGUI.rawRatio DartPlungerGUI.defaults 0 0 := by
    rw [hraw]; norm_num
  exact ⟨h1, c10_clamped_pressure_raw_volume.1 DartPlungerGUI.defaults 0 0 h1⟩

end
